import Mathlib

/-!
Shallow embedding of the `rg_configured_search` pipeline
(`src/rg_configured_search/searcher.py` and `config_reader.py`).

Python integers are modelled as `Int` (offsets, window sizes) or `Nat`
(lengths), byte strings as `List Nat` (each element a byte value), and
fallible Python code (exceptions) as `Except Err`.  External collaborators
(the ripgrep engine, `hashlib.md5`, `Path.absolute`, the filesystem) enter
as explicit parameters: the engine's output is the `List MatchRec` input,
the filesystem is a map from path strings to optional file contents, and
`md5hex` / `absFn` are arbitrary (deterministic) functions standing for
`hashlib.md5(...).hexdigest()` and `Path.absolute()`.
-/

namespace RgConfiguredSearch

/-- Exception classes.  The first three are the Python exception classes the
source code actually raises (`assert`, `raise ValueError`, OS-level I/O
failures).  `configurationError` / `correlationError` / `windowError` are the
error classes named by the specification's taxonomy; they are included so
that statements about them can be expressed, but no function of the source
ever produces them. -/
inductive Err where
  | assertionError
  | valueError
  | ioError
  | configurationError
  | correlationError
  | windowError
deriving DecidableEq, Repr

deriving instance DecidableEq for Except

/-! ## Hex formatting (`_format_as_hex`, searcher.py lines 151-160) -/

/-- One hex digit of `format(value, "x")` output: Python renders lowercase. -/
def hexDigits : Nat → Nat → List Char
  | 0, _ => []
  | fuel + 1, n =>
    if n < 16 then [Nat.digitChar n]
    else hexDigits fuel (n / 16) ++ [Nat.digitChar (n % 16)]

/-- The digits of `format(n, "x")` for a non-negative `n` (fuel-free wrapper:
`n + 1` units of fuel always suffice because the argument strictly
decreases). -/
def natHexChars (n : Nat) : List Char := hexDigits (n + 1) n

/-- Left-pad a digit list with `'0'` to `width` characters (Python `format`
with a `0`-fill: the result is longer than `width` when the number needs
more digits). -/
def zeroPad (width : Nat) (l : List Char) : List Char :=
  List.replicate (width - l.length) '0' ++ l

/-- `format(value, f"0{width}x")`: sign-aware zero padding, as Python does it
(for a negative value the `-` sign occupies one of the `width` columns). -/
def pyHexPadded (value : Int) (width : Nat) : List Char :=
  if value < 0 then '-' :: zeroPad (width - 1) (natHexChars value.natAbs)
  else zeroPad width (natHexChars value.toNat)

/-- The underscore-insertion loop of `_format_as_hex`:
`for i in range(start, 0, -4): fmt = fmt[:i] + "_" + fmt[i:]`.
`fuel` bounds the number of iterations; the caller passes the initial `i`,
which dominates the iteration count since `i` drops by 4 each pass. -/
def underscoreLoop : Nat → List Char → Nat → List Char
  | 0, cs, _ => cs
  | fuel + 1, cs, i =>
    if i = 0 then cs
    else underscoreLoop fuel (cs.take i ++ '_' :: cs.drop i) (i - 4)

/-- `_format_as_hex(value, width)` from searcher.py: fixed-width hex with an
underscore inserted every four characters (anchored at the left), except
that strings shorter than four characters are returned as-is. -/
def format_as_hex (value : Int) (width : Nat) : String :=
  let fmt := pyHexPadded value width
  if fmt.length < 4 then String.mk fmt
  else String.mk (underscoreLoop (fmt.length - fmt.length % 4 - 4)
    fmt (fmt.length - fmt.length % 4 - 4))

/-- Remove every underscore from a string (used to state the round-trip
property of the grouped hex rendering). -/
def stripUnderscores (s : String) : String :=
  String.mk (s.toList.filter (fun c => c ≠ '_'))

/-- Numeric value of one (lowercase or uppercase) hex digit character. -/
def hexCharVal (c : Char) : Nat :=
  if c.toNat ≤ 57 then c.toNat - 48
  else if c.toNat ≤ 70 then c.toNat - 55
  else c.toNat - 87

/-- Parse a string of hex digit characters as a hexadecimal numeral
(the meaning of "parsing back as hexadecimal", e.g. Python `int(s, 16)`,
on well-formed digit strings). -/
def parseHex (s : String) : Nat :=
  s.toList.foldl (fun a c => 16 * a + hexCharVal c) 0

/-! ## Byte strings and Python string helpers -/

/-- UTF-8 encoding of one character (the standard algorithm; Lean's `Char`
excludes surrogates, exactly the values Python refuses to encode, so this
agrees with Python `str.encode("utf-8")` character by character). -/
def utf8Bytes (c : Char) : List Nat :=
  let n := c.toNat
  if n < 128 then [n]
  else if n < 2048 then [192 + n / 64, 128 + n % 64]
  else if n < 65536 then [224 + n / 4096, 128 + n / 64 % 64, 128 + n % 64]
  else [240 + n / 262144, 128 + n / 4096 % 64, 128 + n / 64 % 64, 128 + n % 64]

/-- `s.encode("utf-8")` as a byte list. -/
def strBytes (s : String) : List Nat := s.toList.flatMap utf8Bytes

/-- Python `\s` (ASCII range): the characters removed by
`re.sub(r"\s+", "", val)`. -/
def isPySpace (c : Char) : Bool :=
  c = ' ' || c = '\t' || c = '\n' || c = '\x0d' || c = '\x0b' || c = '\x0c'

/-- `re.sub(r"\s+", "", val)`: drop every whitespace character. -/
def removeWhitespace (s : String) : String :=
  String.mk (s.toList.filter (fun c => !isPySpace c))

/-- Python `str.replace("0x", "")`: remove non-overlapping occurrences of
`"0x"`, scanning left to right. -/
def replace0x : List Char → List Char
  | [] => []
  | '0' :: 'x' :: rest => replace0x rest
  | c :: rest => c :: replace0x rest

/-- Numeric value of a hex digit character, or `none` for a non-hex
character (`bytes.fromhex` raises `ValueError` on those). -/
def hexCharVal? (c : Char) : Option Nat :=
  if '0' ≤ c ∧ c ≤ '9' then some (c.toNat - 48)
  else if 'a' ≤ c ∧ c ≤ 'f' then some (c.toNat - 87)
  else if 'A' ≤ c ∧ c ≤ 'F' then some (c.toNat - 55)
  else none

/-- `bytes.fromhex` on a whitespace-free string: consume hex digit pairs;
a non-hex character (or a dangling digit) raises `ValueError`. -/
def bytesFromHex : List Char → Except Err (List Nat)
  | [] => .ok []
  | [_] => .error .valueError
  | c1 :: c2 :: rest =>
    match hexCharVal? c1, hexCharVal? c2 with
    | some h, some l => (bytesFromHex rest).map (fun bs => (16 * h + l) :: bs)
    | _, _ => .error .valueError

/-! ## `SearchItem` (config_reader.py) -/

/-- The `SearchItem` dataclass.  `byte_count_before_match` /
`byte_count_after_match` are `Optional[int]` in the source with integer
defaults (1024) and are only ever used as integers, so they are modelled as
`Int`. -/
structure SearchItem where
  name : String
  val : String
  val_format : String
  description_notes : String
  happiness_level : Int
  write_to_file : Bool
  byte_count_before_match : Int
  byte_count_after_match : Int
deriving DecidableEq, Repr

/-- `SearchItem.val_as_bytes` (config_reader.py lines 21-38): decode `val`
according to `val_format`.  The failing `assert` on odd-length hex raises
`AssertionError`; an unknown format raises `ValueError`. -/
def val_as_bytes (item : SearchItem) : Except Err (List Nat) :=
  if item.val_format = "ascii" then .ok (strBytes item.val)
  else if item.val_format = "hex" then
    let v := String.mk (item.val.toList.map Char.toLower)
    let v := removeWhitespace v
    let v := replace0x v.toList
    if v.length % 2 = 0 then bytesFromHex v
    else .error .assertionError
  else .error .valueError

/-- `bytes.hex()`: two lowercase hex digits per byte. -/
def bytesHex (bs : List Nat) : List Char :=
  bs.flatMap (fun b => [Nat.digitChar (b / 16), Nat.digitChar (b % 16)])

/-- `SearchItem.clean_hex_pattern_searchable`: `\xHH` for each byte of
`val_as_bytes`. -/
def clean_hex_pattern_searchable (item : SearchItem) : Except Err String := do
  if item.val_format = "ascii" ∨ item.val_format = "hex" then
    let vb ← val_as_bytes item
    .ok (String.mk (vb.flatMap
      (fun b => '\\' :: 'x' :: [Nat.digitChar (b / 16), Nat.digitChar (b % 16)])))
  else .error .assertionError

/-- The pattern-preparation loop of `search_and_save_all_files`
(searcher.py lines 25-39): each supported item contributes
`(?-u:<clean_hex_pattern_searchable>)`; an unsupported format raises
`ValueError`. -/
def build_patterns : List SearchItem → Except Err (List String)
  | [] => .ok []
  | item :: rest =>
    if item.val_format = "ascii" ∨ item.val_format = "hex" then do
      let p ← clean_hex_pattern_searchable item
      let ps ← build_patterns rest
      .ok (("(?-u:" ++ p ++ ")") :: ps)
    else .error .valueError

/-- Python `sep.join(parts)`. -/
def pyJoin (sep : String) : List String → String
  | [] => ""
  | [s] => s
  | s :: rest => s ++ sep ++ pyJoin sep rest

/-- `combined_pattern = "|".join(patterns)` (searcher.py line 42). -/
def build_combined_pattern (items : List SearchItem) : Except Err String :=
  (build_patterns items).map (fun ps => pyJoin "|" ps)

/-! ## Engine output model and run environment

The ripgrep engine is an external collaborator: its JSON output stream is
the `List MatchRec` input of the pipeline.  A submatch's `bytes` field holds
the already base64-decoded byte value (`base64.b64decode` of the engine's
base64 string; absent field decodes to the empty byte string). -/

/-- One element of `match["data"]["submatches"]`. -/
structure Submatch where
  text : Option String
  bytes : Option (List Nat)
  start : Int
deriving DecidableEq, Repr

/-- One record of the engine's JSON stream (`type`, `data.path.text`,
`data.absolute_offset`, `data.submatches`). -/
structure MatchRec where
  type : String
  path : String
  absolute_offset : Int
  submatches : List Submatch
deriving DecidableEq, Repr

/-- One `match_log_summary` line appended to the jsonl logs.  The `uuid`
and `timestamp_utc` fields of the source are fresh values drawn from the
environment (`uuid.uuid4()`, `datetime.utcnow()`) and are not modelled;
the remaining fields are. -/
structure LogRecord where
  item : SearchItem
  source_file_path : String
  global_offset : Int
deriving DecidableEq, Repr

/-- The filesystem side effects and counters accumulated by a run:
artifact files written (path and contents), the run-global
`matches.jsonl` records, the per-directory `matches.jsonl` records, and
the two progress counters. -/
structure Effects where
  artifacts : List (String × List Nat)
  rootLog : List LogRecord
  dirLogs : List (String × LogRecord)
  saved_to_file_count : Nat
  running_submatch_count : Nat
deriving DecidableEq, Repr

def emptyEffects : Effects := ⟨[], [], [], 0, 0⟩

/-- External deterministic collaborators and the filesystem.  `fsStat` and
`fsRead` are the snapshots of the source filesystem seen by
`Path.stat()` and by the subsequent `open`/`read` (they coincide unless the
file mutates between the two calls); `none` means the path cannot be
opened (the OS raises an `IOError`/`OSError`).  `md5hex` stands for
`hashlib.md5(s.encode()).hexdigest()` and `absFn` for
`str(Path(s).absolute())`. -/
structure Env where
  fsStat : String → Option (List Nat)
  fsRead : String → Option (List Nat)
  md5hex : String → String
  absFn : String → String

/-! ## Correlation (searcher.py lines 81-96) -/

/-- The per-item equivalence test of the `applicable_search_items`
comprehension:

`submatch["match"].get("text") == item.val
 or base64.b64decode(submatch["match"].get("bytes", "")) == item.val_as_bytes
 or submatch["match"].get("text", "").encode("utf-8") == item.val_as_bytes`

The first disjunct short-circuits without forcing `val_as_bytes`, exactly
as in Python. -/
def equiv_test (item : SearchItem) (sm : Submatch) : Except Err Bool :=
  if sm.text = some item.val then .ok true
  else do
    let bs ← val_as_bytes item
    .ok (sm.bytes.getD [] == bs || strBytes (sm.text.getD "") == bs)

/-- The `applicable_search_items` list comprehension: keep the items whose
equivalence test is true, evaluating items in order (an exception inside
the comprehension propagates). -/
def applicable_search_items (items : List SearchItem) (sm : Submatch) :
    Except Err (List SearchItem) :=
  match items with
  | [] => .ok []
  | item :: rest => do
    let b ← equiv_test item sm
    let tail ← applicable_search_items rest sm
    .ok (if b then item :: tail else tail)

/-- The correlation step: `assert len(applicable_search_items) == 1` then
`search_item = applicable_search_items[0]`.  A list of any length other
than one fails the assert (an `AssertionError`). -/
def correlate (items : List SearchItem) (sm : Submatch) :
    Except Err SearchItem := do
  let app ← applicable_search_items items sm
  match app with
  | [item] => .ok item
  | _ => .error .assertionError

/-! ## Output paths and windowing (searcher.py lines 105-206) -/

/-- `_md5sum(input, length=6)`: first 6 hex characters of the digest. -/
def md5sum (md5hex : String → String) (input : String) (length : Nat) :
    String := String.mk ((md5hex input).toList.take length)

/-- Split a character list at `'/'` separators. -/
def splitSlash : List Char → List (List Char)
  | [] => [[]]
  | c :: rest =>
    match splitSlash rest with
    | [] => [[]]
    | g :: gs => if c = '/' then [] :: g :: gs else (c :: g) :: gs

/-- `Path.name`: the last path component (empty for a root path). -/
def path_basename (p : String) : String :=
  String.mk (((splitSlash p.toList).filter (fun s => s ≠ [])).getLastD [])

/-- `source_file_path.name.replace(".", "_")`. -/
def sanitized_basename (p : String) : String :=
  String.mk ((path_basename p).toList.map (fun c => if c = '.' then '_' else c))

/-- The per-match output directory (searcher.py lines 105-114):
`output_dir / f"{happiness_level}_{name}" /
 f"{md5(abs path)[:6]}_{basename with dots replaced}"`. -/
def match_directory (md5hex absFn : String → String) (output_dir : String)
    (item : SearchItem) (source_file_path : String) : String :=
  output_dir ++ "/" ++ toString item.happiness_level ++ "_" ++ item.name
    ++ "/" ++ md5sum md5hex (absFn source_file_path) 6 ++ "_"
    ++ sanitized_basename source_file_path

/-- The effective number of context bytes kept before the match
(searcher.py lines 173-180): clamped to `global_offset` when the match sits
closer to the start of the file than the configured window. -/
def effective_byte_count_before (global_offset bcb : Int) : Int :=
  if global_offset < bcb then global_offset else bcb

/-- `start_global_offset = global_offset - byte_count_before_match`
(after the clamp above). -/
def start_global_offset (global_offset bcb : Int) : Int :=
  global_offset - effective_byte_count_before global_offset bcb

/-- `end_global_offset = min(global_offset + len(val_as_bytes) +
byte_count_after_match, file_size)` (searcher.py lines 186-192). -/
def end_global_offset (global_offset matchLen bca size : Int) : Int :=
  min (global_offset + matchLen + bca) size

/-- `output_filename` (searcher.py lines 194-196): the hex renderings of the
global offset (width 12) and of the effective local offset (width 4). -/
def output_filename (global_offset bcb : Int) : String :=
  "found_g_0x" ++ format_as_hex global_offset 12 ++ "_startat_0x"
    ++ format_as_hex (effective_byte_count_before global_offset bcb) 4 ++ ".bin"

/-- Full output path of one artifact: directory (lines 105-114) plus
filename (lines 194-198). -/
def full_output_path (md5hex absFn : String → String) (output_dir : String)
    (item : SearchItem) (source_file_path : String) (global_offset : Int) :
    String :=
  match_directory md5hex absFn output_dir item source_file_path ++ "/"
    ++ output_filename global_offset item.byte_count_before_match

/-- `save_match_to_file` (searcher.py lines 163-206).  Returns the single
whole-file write it performs: the artifact's path and its contents.
`fsStat`/`fsRead` are the filesystem snapshots seen by `stat()` and by
`open`/`read`.  A missing file raises `IOError`; `seek` past the end of the
file yields a short (possibly empty) read; a negative read length raises
`ValueError` (Python's `read` refuses negative sizes; the special size -1,
which Python treats as read-to-end before the length assert then fails
anyway, is not distinguished); the short-read check is the source's
`assert len(data_bytes) == length_of_output_bytes`. -/
def save_match_to_file (item : SearchItem) (source_file_path : String)
    (fsStat fsRead : String → Option (List Nat)) (output_dir : String)
    (global_offset : Int) : Except Err (String × List Nat) :=
  if item.write_to_file = false then .error .assertionError
  else if start_global_offset global_offset item.byte_count_before_match < 0
    then .error .assertionError
  else
    match fsStat source_file_path with
    | none => .error .ioError
    | some statContents =>
      match val_as_bytes item with
      | .error e => .error e
      | .ok vb =>
        let start :=
          start_global_offset global_offset item.byte_count_before_match
        let endo := end_global_offset global_offset (vb.length : Int)
          item.byte_count_after_match (statContents.length : Int)
        let len := endo - start
        let output_path := output_dir ++ "/"
          ++ output_filename global_offset item.byte_count_before_match
        match fsRead source_file_path with
        | none => .error .ioError
        | some source =>
          if len < 0 then .error .valueError
          else
            let data := (source.drop start.toNat).take len.toNat
            if (data.length : Int) = len then .ok (output_path, data)
            else .error .assertionError

/-! ## The main loop (searcher.py lines 67-148) -/

/-- The body of the inner `for submatch in match["data"]["submatches"]`
loop: correlate, compute `global_offset = absolute_offset + submatch["start"]`,
build the output directory, optionally call `save_match_to_file`, then
append one log record to the run-global and to the per-directory
`matches.jsonl` and bump the counters.  An uncaught exception anywhere in
the body propagates (no `try`/`except` exists in the source). -/
def process_submatch (items : List SearchItem) (env : Env)
    (output_dir : String) (mpath : String) (absolute_offset : Int)
    (sm : Submatch) (eff : Effects) : Except Err Effects :=
  match correlate items sm with
  | .error e => .error e
  | .ok item =>
    let global_offset := absolute_offset + sm.start
    let directory := match_directory env.md5hex env.absFn output_dir item mpath
    let afterSave : Except Err Effects :=
      if item.write_to_file then
        match save_match_to_file item mpath env.fsStat env.fsRead
            directory global_offset with
        | .error e => .error e
        | .ok write =>
          .ok { artifacts := eff.artifacts ++ [write]
                rootLog := eff.rootLog
                dirLogs := eff.dirLogs
                saved_to_file_count := eff.saved_to_file_count + 1
                running_submatch_count := eff.running_submatch_count }
      else .ok eff
    match afterSave with
    | .error e => .error e
    | .ok eff1 =>
      let record : LogRecord := ⟨item, env.absFn mpath, global_offset⟩
      .ok { artifacts := eff1.artifacts
            rootLog := eff1.rootLog ++ [record]
            dirLogs := eff1.dirLogs ++ [(directory, record)]
            saved_to_file_count := eff1.saved_to_file_count
            running_submatch_count := eff1.running_submatch_count + 1 }

/-- Fold of `process_submatch` over the submatch list of one match record.
The first uncaught exception stops the run; side effects already performed
(by earlier submatches) persist. -/
def process_submatches (items : List SearchItem) (env : Env)
    (output_dir : String) (mpath : String) (absolute_offset : Int) :
    List Submatch → Effects → Effects × Option Err
  | [], eff => (eff, none)
  | sm :: rest, eff =>
    match process_submatch items env output_dir mpath absolute_offset sm eff with
    | .error e => (eff, some e)
    | .ok eff1 => process_submatches items env output_dir mpath absolute_offset rest eff1

/-- The body of the outer `for match_num, match in enumerate(results, 1)`
loop: skip records whose type is not `"match"`; `assert` that at least one
submatch is present (the walrus in the source binds the boolean
`len(...) >= 1`, which the assert checks); then process each submatch. -/
def process_match (items : List SearchItem) (env : Env)
    (output_dir : String) (m : MatchRec) (eff : Effects) :
    Effects × Option Err :=
  if m.type ≠ "match" then (eff, none)
  else if m.submatches.length = 0 then (eff, some .assertionError)
  else process_submatches items env output_dir m.path m.absolute_offset
    m.submatches eff

/-- Fold of `process_match` over the engine's record stream, stopping at
the first uncaught exception. -/
def runMatches (items : List SearchItem) (env : Env) (output_dir : String) :
    List MatchRec → Effects → Effects × Option Err
  | [], eff => (eff, none)
  | m :: rest, eff =>
    match process_match items env output_dir m eff with
    | (eff1, none) => runMatches items env output_dir rest eff1
    | (eff1, some e) => (eff1, some e)

/-- `search_and_save_all_files`: build the combined pattern (forcing every
item's decoded value — a configuration error raises here, before any match
is processed), hand it to the engine (whose answer is the `results`
parameter), then run the match loop. -/
def search_and_save_all_files (items : List SearchItem) (env : Env)
    (output_dir : String) (results : List MatchRec) :
    Effects × Option Err :=
  match build_combined_pattern items with
  | .error e => (emptyEffects, some e)
  | .ok _ => runMatches items env output_dir results emptyEffects

/-- Modelled from the spec: the per-submatch `(source path, global offset)`
pairs the specification expects a complete run to log — one entry per
submatch of every `"match"`-type record, at offset
`absolute_offset + submatch.start`.  Stated from the spec's words for
comparison with the pipeline above. -/
def spec_expected_offsets (absFn : String → String)
    (results : List MatchRec) : List (String × Int) :=
  (results.filter (fun m => m.type = "match")).flatMap
    (fun m => m.submatches.map
      (fun sm => (absFn m.path, m.absolute_offset + sm.start)))

/-! ## Concrete fixtures for witnesses and counterexamples -/

/-- The spec's scenario pattern: ASCII `PASSWORD`, windows of 4 bytes. -/
def secretItem : SearchItem :=
  ⟨"secret", "PASSWORD", "ascii", "", 1, true, 4, 4⟩

/-- A 20-byte file with `PASSWORD` at offset 10. -/
def demoFileBytes : List Nat := strBytes "0123456789PASSWORDXY"

/-- Filesystem holding exactly the demo file. -/
def demoFs : String → Option (List Nat) :=
  fun p => if p = "/data/demo.bin" then some demoFileBytes else none

/-- The demo file truncated to 5 bytes (a source file that shrank between
`stat` and `read`). -/
def demoFsTruncated : String → Option (List Nat) :=
  fun p => if p = "/data/demo.bin" then some (demoFileBytes.take 5) else none

/-- Substring test (used to state what a filename "carries"). -/
def containsSub (hay pat : List Char) : Bool :=
  (List.range (hay.length + 1)).any (fun i => pat.isPrefixOf (hay.drop i))

/-- A small ASCII pattern with 2-byte context windows. -/
def itemAB : SearchItem := ⟨"a", "AB", "ascii", "", 1, true, 2, 2⟩

/-- The same pattern with artifact persistence disabled. -/
def itemABnoWrite : SearchItem := ⟨"a", "AB", "ascii", "", 1, false, 2, 2⟩

/-- A hex pattern with an even number of digits after cleaning. -/
def hexPairItem : SearchItem := ⟨"h", "0x01 02", "hex", "", 1, true, 2, 2⟩

/-- A hex pattern with an odd number of digits after cleaning. -/
def hexOddItem : SearchItem := ⟨"h", "0x0", "hex", "", 1, true, 2, 2⟩

/-- A fixed digest function standing in for `hashlib.md5`. -/
def md5c : String → String := fun _ => "d41d8cabcdef"

/-- Identity absolutization: the demo paths are already absolute. -/
def absId : String → String := fun s => s

/-- A filesystem holding one 8-byte file `/f` with `AB` at offset 3. -/
def fsF : String → Option (List Nat) :=
  fun p => if p = "/f" then some (strBytes "xxxAByyy") else none

def envF : Env := ⟨fsF, fsF, md5c, absId⟩

/-- An engine record for the `AB` hit in `/f`: base offset 1, local 2. -/
def goodMatch : MatchRec := ⟨"match", "/f", 1, [⟨some "AB", none, 2⟩]⟩

/-- An engine record whose source file is absent from the filesystem, so
the first read of it raises an `IOError`. -/
def badMatch : MatchRec := ⟨"match", "/gone", 0, [⟨some "AB", none, 0⟩]⟩

/-- The `(source path, global offset)` view of a log record. -/
def logProj (r : LogRecord) : String × Int :=
  (r.source_file_path, r.global_offset)

/-- The effects of the successful one-match demo run
(`search_and_save_all_files [itemAB] envF "out" [goodMatch]`). -/
def goodRunEffects : Effects :=
  ⟨[("out/1_a/d41d8c_f/found_g_0x0000_0000_0003_startat_0x0002.bin",
     strBytes "xxAByy")],
   [⟨itemAB, "/f", 3⟩],
   [("out/1_a/d41d8c_f", ⟨itemAB, "/f", 3⟩)], 1, 1⟩

/-! # Theorems -/

/-! ## Helper lemmas about the hex rendering -/

theorem digitChar_ne_underscore (d : Nat) (h : d < 16) :
    Nat.digitChar d ≠ '_' := by
  interval_cases d <;> decide

theorem hexDigits_ne_underscore (fuel : Nat) : ∀ n, ∀ c ∈ hexDigits fuel n,
    c ≠ '_' := by
  induction fuel with
  | zero => intro n c hc; simp [hexDigits] at hc
  | succ fuel ih =>
    intro n c hc
    simp only [hexDigits] at hc
    split at hc
    · simp at hc
      subst hc
      exact digitChar_ne_underscore n (by assumption)
    · rcases List.mem_append.mp hc with h1 | h2
      · exact ih _ c h1
      · simp at h2
        subst h2
        exact digitChar_ne_underscore _ (Nat.mod_lt _ (by omega))

theorem underscoreLoop_filter (fuel : Nat) : ∀ cs i,
    (underscoreLoop fuel cs i).filter (fun c => c ≠ '_')
      = cs.filter (fun c => c ≠ '_') := by
  induction fuel with
  | zero => intro cs i; rfl
  | succ fuel ih =>
    intro cs i
    simp only [underscoreLoop]
    split
    · rfl
    · rw [ih]
      rw [List.filter_append]
      rw [show (('_' :: cs.drop i).filter (fun c => c ≠ '_'))
          = (cs.drop i).filter (fun c => c ≠ '_') by simp]
      rw [← List.filter_append, List.take_append_drop]

theorem hexCharVal_digitChar (d : Nat) (h : d < 16) :
    hexCharVal (Nat.digitChar d) = d := by
  interval_cases d <;> decide

theorem hexDigits_foldl (fuel : Nat) : ∀ n a, n < fuel →
    (hexDigits fuel n).foldl (fun a c => 16 * a + hexCharVal c) a
      = a * 16 ^ (hexDigits fuel n).length + n := by
  induction fuel with
  | zero => intro n a h; omega
  | succ fuel ih =>
    intro n a h
    simp only [hexDigits]
    split
    · rename_i h16
      simp [hexCharVal_digitChar n h16]
      omega
    · rename_i h16
      rw [List.foldl_append, List.length_append]
      rw [ih (n / 16) a (by omega)]
      simp [hexCharVal_digitChar (n % 16) (Nat.mod_lt _ (by omega))]
      rw [pow_succ, ← mul_assoc]
      have hdm := Nat.div_add_mod n 16
      generalize a * 16 ^ (hexDigits fuel (n / 16)).length = b
      omega

theorem foldl_replicate_zero (k : Nat) :
    (List.replicate k '0').foldl (fun a c => 16 * a + hexCharVal c) 0 = 0 := by
  induction k with
  | zero => rfl
  | succ k ih =>
    rw [List.replicate_succ, List.foldl_cons]
    exact ih

theorem pyHexPadded_ne_underscore (v : Int) (w : Nat) (h0 : 0 ≤ v) :
    ∀ c ∈ pyHexPadded v w, c ≠ '_' := by
  intro c hc
  unfold pyHexPadded at hc
  rw [if_neg (by omega)] at hc
  unfold zeroPad at hc
  rcases List.mem_append.mp hc with h1 | h2
  · rw [List.eq_of_mem_replicate h1]
    decide
  · exact hexDigits_ne_underscore _ _ c h2

/-- C10: for every non-negative value whose zero-padded hex rendering at the
requested width has at least 4 characters, stripping the underscores from
`_format_as_hex`'s output returns exactly that zero-padded lowercase hex
string, and parsing it back as hexadecimal recovers the value. -/
theorem hex_format_roundtrip (v : Int) (w : Nat) (h0 : 0 ≤ v)
    (h4 : 4 ≤ (pyHexPadded v w).length) :
    stripUnderscores (format_as_hex v w) = String.mk (pyHexPadded v w) ∧
    parseHex (stripUnderscores (format_as_hex v w)) = v.toNat := by
  have hmain : stripUnderscores (format_as_hex v w)
      = String.mk (pyHexPadded v w) := by
    unfold format_as_hex stripUnderscores
    rw [if_neg (by omega)]
    show String.mk ((underscoreLoop _ _ _).filter _) = _
    rw [underscoreLoop_filter]
    rw [List.filter_eq_self.mpr]
    intro c hc
    simpa using pyHexPadded_ne_underscore v w h0 c hc
  refine ⟨hmain, ?_⟩
  rw [hmain]
  unfold parseHex
  show (pyHexPadded v w).foldl _ 0 = v.toNat
  unfold pyHexPadded
  rw [if_neg (by omega)]
  unfold zeroPad natHexChars
  rw [List.foldl_append, foldl_replicate_zero]
  rw [hexDigits_foldl (v.toNat + 1) v.toNat 0 (by omega)]
  simp

/-- Witness for C10 at `value = 10`, `width = 12`. -/
theorem hex_format_roundtrip_witness :
    ((0 : Int) ≤ 10 ∧ 4 ≤ (pyHexPadded 10 12).length) ∧
    stripUnderscores (format_as_hex 10 12) = String.mk (pyHexPadded 10 12) ∧
    parseHex (stripUnderscores (format_as_hex 10 12)) = (10 : Int).toNat :=
  ⟨⟨by decide, by decide⟩, hex_format_roundtrip 10 12 (by decide) (by decide)⟩

/-! ## Generic reduction lemmas for `Except` -/

theorem except_bind_ok {α β : Type} (a : α) (f : α → Except Err β) :
    (Except.ok a : Except Err α) >>= f = f a := rfl

theorem except_bind_error {α β : Type} (e : Err) (f : α → Except Err β) :
    (Except.error e : Except Err α) >>= f = Except.error e := rfl

/-! ## C2: window clamping -/

/-- C2: for non-negative `global_offset`, `window_before` and `window_after`
the extracted window has `start = max(global_offset - window_before, 0)`
(truncated at the file start, never negative, effective before-size
`global_offset` when `global_offset < window_before`) and
`end = min(global_offset + match_length + window_after, file_size)`. -/
theorem window_clamping (g bcb bca matchLen size : Int)
    (hg : 0 ≤ g) (hb : 0 ≤ bcb) (ha : 0 ≤ bca) :
    start_global_offset g bcb = max (g - bcb) 0 ∧
    (g < bcb → start_global_offset g bcb = 0 ∧
      effective_byte_count_before g bcb = g) ∧
    end_global_offset g matchLen bca size = min (g + matchLen + bca) size := by
  unfold start_global_offset effective_byte_count_before end_global_offset
  split <;> omega

/-- Witness for C2 at the spec's scenario numbers. -/
theorem window_clamping_witness :
    ((0 : Int) ≤ 10 ∧ (0 : Int) ≤ 4 ∧ (0 : Int) ≤ 4) ∧
    start_global_offset 10 4 = max (10 - 4) 0 ∧
    ((10 : Int) < 4 → start_global_offset 10 4 = 0 ∧
      effective_byte_count_before 10 4 = 10) ∧
    end_global_offset 10 8 4 20 = min (10 + 8 + 4) 20 :=
  ⟨⟨by decide, by decide, by decide⟩,
   window_clamping 10 4 4 8 20 (by decide) (by decide) (by decide)⟩

/-! ## C6: hex decoding requires an even digit count -/

/-- C6 amended: `val="0x01 02"` decodes to bytes `01 02`; the odd-length
`val="0x0"` makes decoding fail — with an `AssertionError` (the source's
bare `assert`), not a `ConfigurationError`. -/
theorem hex_decoding_even_required :
    val_as_bytes hexPairItem = .ok [1, 2] ∧
    val_as_bytes hexOddItem = .error .assertionError := by decide

/-- C6 counterexample: the odd-length hex value raises `AssertionError`,
which is not the `ConfigurationError` the claim names. -/
theorem hex_decoding_error_class_counterexample :
    val_as_bytes hexOddItem = .error .assertionError ∧
    (Except.error Err.assertionError : Except Err (List Nat))
      ≠ .error .configurationError := by decide

/-! ## C1: correlation must match exactly one definition -/

theorem applicable_search_items_ok (sm : Submatch) :
    ∀ items : List SearchItem, (∀ it ∈ items, ∃ b, equiv_test it sm = .ok b) →
    applicable_search_items items sm
      = .ok (items.filter (fun it => equiv_test it sm == .ok true)) := by
  intro items h
  induction items with
  | nil => rfl
  | cons it rest ih =>
    obtain ⟨b, hb⟩ := h it (by simp)
    have hrest := ih (fun x hx => h x (by simp [hx]))
    simp only [applicable_search_items, hb, hrest, except_bind_ok]
    cases b <;> simp [List.filter_cons, hb]

/-- C1 amended: when every equivalence test evaluates without error,
correlation returns the unique item passing the test, and any other number
of passing items (zero or several) fails the uniqueness `assert` with an
`AssertionError` — the source does not distinguish the spec's
`CorrelationError` (zero) from `ConfigurationError` (several). -/
theorem correlation_exactly_one (items : List SearchItem) (sm : Submatch)
    (h : ∀ it ∈ items, ∃ b, equiv_test it sm = .ok b) :
    (∀ item, items.filter (fun it => equiv_test it sm == .ok true) = [item] →
      correlate items sm = .ok item) ∧
    ((items.filter (fun it => equiv_test it sm == .ok true)).length ≠ 1 →
      correlate items sm = .error .assertionError) := by
  have happ := applicable_search_items_ok sm items h
  constructor
  · intro item hfil
    simp only [correlate, happ, except_bind_ok, hfil]
  · intro hlen
    simp only [correlate, happ, except_bind_ok]
    cases hfe : items.filter (fun it => equiv_test it sm == .ok true) with
    | nil => rfl
    | cons a t =>
      cases t with
      | nil =>
        rw [hfe] at hlen
        simp at hlen
      | cons b t2 => rfl

/-- Witness for C1: a singleton registry correlates its own hit. -/
theorem correlation_exactly_one_witness :
    correlate [itemAB] ⟨some "AB", none, 0⟩ = .ok itemAB := by
  have h : ∀ it ∈ [itemAB], ∃ b, equiv_test it ⟨some "AB", none, 0⟩ = .ok b := by
    intro it hit
    simp only [List.mem_singleton] at hit
    subst hit
    exact ⟨true, by decide⟩
  exact (correlation_exactly_one [itemAB] ⟨some "AB", none, 0⟩ h).1 itemAB
    (by decide)

/-- C1 counterexample: with duplicate byte values in the registry (or with
no matching definition at all) correlation raises `AssertionError`, not the
`ConfigurationError` / `CorrelationError` the claim names. -/
theorem correlation_error_class_counterexample :
    correlate [itemAB, itemAB] ⟨some "AB", none, 0⟩ = .error .assertionError ∧
    (Except.error Err.assertionError : Except Err SearchItem)
      ≠ .error .configurationError ∧
    correlate [itemAB] ⟨some "CD", none, 0⟩ = .error .assertionError ∧
    (Except.error Err.assertionError : Except Err SearchItem)
      ≠ .error .correlationError := by decide

/-! ## C3: the spec's PASSWORD scenario -/

/-- C3 counterexample: in the spec's scenario the artifact name produced by
the source is `found_g_0x0000_0000_000a_startat_0x0004.bin` — the global
offset is rendered with underscore grouping, so the claimed rendering
`0x00000000000a` does not occur in the name (the local rendering `0x0004`
does). -/
theorem scenario_naming_counterexample :
    save_match_to_file secretItem "/data/demo.bin" demoFs demoFs "out" 10
      = .ok ("out/found_g_0x0000_0000_000a_startat_0x0004.bin",
             demoFileBytes.drop 6) ∧
    containsSub "found_g_0x0000_0000_000a_startat_0x0004.bin".toList
      "0x00000000000a".toList = false ∧
    containsSub "found_g_0x0000_0000_000a_startat_0x0004.bin".toList
      "0x0004".toList = true := by decide

/-- C3 amended: the artifact holds exactly bytes `[6,20)` of the 20-byte
source file, and the name renders the global offset as the
underscore-grouped `0x0000_0000_000a` (equal to `0x00000000000a` once the
grouping underscores are removed) and the local offset as `0x0004`. -/
theorem scenario_password_window :
    save_match_to_file secretItem "/data/demo.bin" demoFs demoFs "out" 10
      = .ok ("out/found_g_0x0000_0000_000a_startat_0x0004.bin",
             (demoFileBytes.take 20).drop 6) ∧
    demoFileBytes.length = 20 ∧
    stripUnderscores (format_as_hex 10 12) = "00000000000a" ∧
    format_as_hex 4 4 = "0004" := by decide

/-! ## C9: deterministic naming -/

/-- C9: the artifact path construction is a pure function of the
`(file_path, global_offset, pattern definition)` tuple (the digest and
absolutization collaborators being deterministic functions): evaluating it
twice on equal inputs yields the identical output filename. -/
theorem naming_deterministic (md5hex absFn : String → String) (d : String)
    (item1 item2 : SearchItem) (p1 p2 : String) (g1 g2 : Int)
    (hi : item1 = item2) (hp : p1 = p2) (hg : g1 = g2) :
    full_output_path md5hex absFn d item1 p1 g1
      = full_output_path md5hex absFn d item2 p2 g2 := by
  subst hi
  subst hp
  subst hg
  rfl

/-- Witness for C9 on the demo fixtures. -/
theorem naming_deterministic_witness :
    itemAB = itemAB ∧
    full_output_path md5c absId "out" itemAB "/f" 3
      = full_output_path md5c absId "out" itemAB "/f" 3 :=
  ⟨rfl, naming_deterministic md5c absId "out" itemAB itemAB "/f" "/f" 3 3
    rfl rfl rfl⟩

/-! ## C4: the artifact write is whole or nothing -/

/-- C4 amended: any artifact actually written consists of exactly
`length = end - start` bytes read from offset `start` of the source file —
a short read can never produce an artifact (the length `assert` precedes
the write), and the failure it raises is an `AssertionError`, not the
`IOError` the claim names. -/
theorem artifact_whole_write (item : SearchItem) (p out_dir : String)
    (fsStat fsRead : String → Option (List Nat)) (g : Int)
    (res : String × List Nat)
    (h : save_match_to_file item p fsStat fsRead out_dir g = .ok res) :
    ∃ statContents source vb,
      fsStat p = some statContents ∧ fsRead p = some source ∧
      val_as_bytes item = .ok vb ∧
      res.2 = (source.drop
          (start_global_offset g item.byte_count_before_match).toNat).take
          (end_global_offset g (vb.length : Int) item.byte_count_after_match
              (statContents.length : Int)
            - start_global_offset g item.byte_count_before_match).toNat ∧
      (res.2.length : Int)
        = end_global_offset g (vb.length : Int) item.byte_count_after_match
            (statContents.length : Int)
          - start_global_offset g item.byte_count_before_match := by
  simp only [save_match_to_file] at h
  split at h
  · exact absurd h (by simp)
  split at h
  · exact absurd h (by simp)
  split at h
  · exact absurd h (by simp)
  rename_i statContents hstat
  split at h
  · exact absurd h (by simp)
  rename_i vb hvb
  split at h
  · exact absurd h (by simp)
  rename_i source hread
  split at h
  · exact absurd h (by simp)
  split at h
  · rename_i hlen hd
    injection h with h2
    subst h2
    exact ⟨statContents, source, vb, hstat, hread, hvb, rfl, hd⟩
  · exact absurd h (by simp)

/-- Witness for C4 on the spec's scenario. -/
theorem artifact_whole_write_witness :
    save_match_to_file secretItem "/data/demo.bin" demoFs demoFs "out" 10
      = .ok ("out/found_g_0x0000_0000_000a_startat_0x0004.bin",
             demoFileBytes.drop 6) ∧
    (∃ statContents source vb,
      demoFs "/data/demo.bin" = some statContents ∧
      demoFs "/data/demo.bin" = some source ∧
      val_as_bytes secretItem = .ok vb ∧
      demoFileBytes.drop 6 = (source.drop
          (start_global_offset 10 secretItem.byte_count_before_match).toNat).take
          (end_global_offset 10 (vb.length : Int)
              secretItem.byte_count_after_match (statContents.length : Int)
            - start_global_offset 10 secretItem.byte_count_before_match).toNat ∧
      ((demoFileBytes.drop 6).length : Int)
        = end_global_offset 10 (vb.length : Int)
            secretItem.byte_count_after_match (statContents.length : Int)
          - start_global_offset 10 secretItem.byte_count_before_match) :=
  ⟨by decide,
   artifact_whole_write secretItem "/data/demo.bin" "out" demoFs demoFs 10
    ("out/found_g_0x0000_0000_000a_startat_0x0004.bin", demoFileBytes.drop 6)
    (by decide)⟩

/-- C4 counterexample: when the source file shrinks between `stat` and
`read` the short read fails the `assert`, raising `AssertionError` — not
the `IOError` the claim names (no artifact is produced either way). -/
theorem truncated_read_error_class_counterexample :
    save_match_to_file secretItem "/data/demo.bin" demoFs demoFsTruncated
      "out" 10 = .error .assertionError ∧
    (Except.error Err.assertionError : Except Err (String × List Nat))
      ≠ .error .ioError := by decide

/-! ## C7: disabled persistence still logs -/

/-- C7: when the correlated pattern has `write_to_file = False`, processing
the submatch writes no artifact, yet appends the audit record to both the
run-global and the per-directory log (and does not bump the saved-file
counter). -/
theorem no_artifact_when_disabled (items : List SearchItem) (env : Env)
    (out mpath : String) (aoff : Int) (sm : Submatch) (eff : Effects)
    (item : SearchItem) (hc : correlate items sm = .ok item)
    (hw : item.write_to_file = false) :
    process_submatch items env out mpath aoff sm eff =
      .ok ⟨eff.artifacts,
           eff.rootLog ++ [⟨item, env.absFn mpath, aoff + sm.start⟩],
           eff.dirLogs ++ [(match_directory env.md5hex env.absFn out item mpath,
             ⟨item, env.absFn mpath, aoff + sm.start⟩)],
           eff.saved_to_file_count,
           eff.running_submatch_count + 1⟩ := by
  simp [process_submatch, hc, hw]

/-- Witness for C7: the no-persist pattern logs its hit without any
artifact write. -/
theorem no_artifact_when_disabled_witness :
    correlate [itemABnoWrite] ⟨some "AB", none, 2⟩ = .ok itemABnoWrite ∧
    itemABnoWrite.write_to_file = false ∧
    process_submatch [itemABnoWrite] envF "out" "/f" 1 ⟨some "AB", none, 2⟩
        emptyEffects
      = .ok ⟨[], [⟨itemABnoWrite, "/f", 3⟩],
             [("out/1_a/d41d8c_f", ⟨itemABnoWrite, "/f", 3⟩)], 0, 1⟩ :=
  ⟨by decide, rfl, by
    rw [no_artifact_when_disabled [itemABnoWrite] envF "out" "/f" 1
      ⟨some "AB", none, 2⟩ emptyEffects itemABnoWrite (by decide) rfl]
    decide⟩

/-! ## C5: an I/O error aborts the run -/

/-- C5 amended: an uncaught exception (such as the `IOError` from an
unreadable source file) while processing one match record stops the run:
the remaining match records are never processed, whatever they are. -/
theorem error_stops_processing (items : List SearchItem) (env : Env)
    (out : String) (m : MatchRec) (rest : List MatchRec) (eff eff1 : Effects)
    (e : Err) (h : process_match items env out m eff = (eff1, some e)) :
    runMatches items env out (m :: rest) eff = (eff1, some e) := by
  simp only [runMatches]
  rw [h]

/-- Witness for C5: the missing-file record aborts a two-record run. -/
theorem error_stops_processing_witness :
    process_match [itemAB] envF "out" badMatch emptyEffects
      = (emptyEffects, some Err.ioError) ∧
    runMatches [itemAB] envF "out" [badMatch, goodMatch] emptyEffects
      = (emptyEffects, some Err.ioError) :=
  ⟨by decide, error_stops_processing [itemAB] envF "out" badMatch [goodMatch]
    emptyEffects emptyEffects Err.ioError (by decide)⟩

/-- C5 counterexample: the run over `[badMatch, goodMatch]` aborts with the
`IOError` of the first record and logs nothing at all — in particular it
does not continue to `goodMatch`, which a run over `[goodMatch]` alone
processes successfully. -/
theorem io_error_aborts_run_counterexample :
    search_and_save_all_files [itemAB] envF "out" [badMatch, goodMatch]
      = (emptyEffects, some Err.ioError) ∧
    search_and_save_all_files [itemAB] envF "out" [goodMatch]
      = (goodRunEffects, none) := by decide

/-! ## C8: one log record per submatch, at the combined offset -/

theorem process_submatch_rootLog (items : List SearchItem) (env : Env)
    (out mpath : String) (aoff : Int) (sm : Submatch) (eff eff1 : Effects)
    (h : process_submatch items env out mpath aoff sm eff = .ok eff1) :
    ∃ item, correlate items sm = .ok item ∧
      eff1.rootLog = eff.rootLog ++ [⟨item, env.absFn mpath, aoff + sm.start⟩] := by
  simp only [process_submatch] at h
  split at h
  · exact absurd h (by simp)
  rename_i item hc
  refine ⟨item, hc, ?_⟩
  split at h
  · exact absurd h (by simp)
  rename_i eff2 hsave
  injection h with h2
  subst h2
  split at hsave
  · split at hsave
    · exact absurd hsave (by simp)
    · injection hsave with h3
      subst h3
      rfl
  · injection hsave with h3
    subst h3
    rfl

theorem process_submatches_rootLog (items : List SearchItem) (env : Env)
    (out mpath : String) (aoff : Int) :
    ∀ (sms : List Submatch) (eff eff1 : Effects),
    process_submatches items env out mpath aoff sms eff = (eff1, none) →
    eff1.rootLog.map logProj
      = eff.rootLog.map logProj
        ++ sms.map (fun sm => (env.absFn mpath, aoff + sm.start)) := by
  intro sms
  induction sms with
  | nil =>
    intro eff eff1 h
    simp only [process_submatches] at h
    rw [Prod.mk.injEq] at h
    rw [← h.1]
    simp
  | cons sm rest ih =>
    intro eff eff1 h
    simp only [process_submatches] at h
    split at h
    · rename_i e hp
      rw [Prod.mk.injEq] at h
      exact absurd h.2 (by simp)
    · rename_i effA hp
      obtain ⟨item, hc, hlog⟩ :=
        process_submatch_rootLog items env out mpath aoff sm eff effA hp
      rw [ih effA eff1 h, hlog]
      simp [logProj]

theorem spec_expected_cons (absFn : String → String) (m : MatchRec)
    (rest : List MatchRec) :
    spec_expected_offsets absFn (m :: rest)
      = (if m.type = "match"
         then m.submatches.map
           (fun sm => (absFn m.path, m.absolute_offset + sm.start))
         else [])
        ++ spec_expected_offsets absFn rest := by
  unfold spec_expected_offsets
  by_cases ht : m.type = "match"
  · simp [List.filter_cons, ht]
  · simp [List.filter_cons, ht]

theorem process_match_rootLog (items : List SearchItem) (env : Env)
    (out : String) (m : MatchRec) (eff eff1 : Effects)
    (h : process_match items env out m eff = (eff1, none)) :
    eff1.rootLog.map logProj
      = eff.rootLog.map logProj
        ++ (if m.type = "match"
            then m.submatches.map
              (fun sm => (env.absFn m.path, m.absolute_offset + sm.start))
            else []) := by
  unfold process_match at h
  split at h
  · rename_i ht
    rw [Prod.mk.injEq] at h
    rw [← h.1]
    simp [ht]
  · rename_i ht
    split at h
    · rw [Prod.mk.injEq] at h
      exact absurd h.2 (by simp)
    · rw [process_submatches_rootLog items env out m.path m.absolute_offset
        m.submatches eff eff1 h]
      rw [if_pos (not_not.mp ht)]

theorem runMatches_rootLog (items : List SearchItem) (env : Env)
    (out : String) :
    ∀ (ms : List MatchRec) (eff eff1 : Effects),
    runMatches items env out ms eff = (eff1, none) →
    eff1.rootLog.map logProj
      = eff.rootLog.map logProj ++ spec_expected_offsets env.absFn ms := by
  intro ms
  induction ms with
  | nil =>
    intro eff eff1 h
    simp only [runMatches] at h
    rw [Prod.mk.injEq] at h
    rw [← h.1]
    simp [spec_expected_offsets]
  | cons m rest ih =>
    intro eff eff1 h
    simp only [runMatches] at h
    split at h
    · rename_i effA hpm
      rw [ih effA eff1 h,
        process_match_rootLog items env out m eff effA hpm,
        spec_expected_cons, List.append_assoc]
    · rename_i effA e hpm
      rw [Prod.mk.injEq] at h
      exact absurd h.2 (by simp)

/-- C8: a run that completes without error logs exactly one record per
submatch of every `"match"`-type engine record, in order, and each
record's `global_offset` is the record's `absolute_offset` plus the
submatch's local `start` — matching the expectation computed from the
spec's words. -/
theorem submatch_offsets_logged (items : List SearchItem) (env : Env)
    (out : String) (results : List MatchRec) (eff : Effects)
    (h : search_and_save_all_files items env out results = (eff, none)) :
    eff.rootLog.map logProj = spec_expected_offsets env.absFn results := by
  unfold search_and_save_all_files at h
  split at h
  · rw [Prod.mk.injEq] at h
    exact absurd h.2 (by simp)
  · rw [runMatches_rootLog items env out results emptyEffects eff h]
    simp [emptyEffects]

/-- Witness for C8 on the one-record demo run. -/
theorem submatch_offsets_logged_witness :
    search_and_save_all_files [itemAB] envF "out" [goodMatch]
      = (goodRunEffects, none) ∧
    goodRunEffects.rootLog.map logProj
      = spec_expected_offsets envF.absFn [goodMatch] :=
  ⟨by decide,
   submatch_offsets_logged [itemAB] envF "out" [goodMatch] goodRunEffects
    (by decide)⟩

end RgConfiguredSearch
